import Mathlib

/-!
A shallow embedding of the sector-store core of the skynet host
(`modules/host/contractmanager/sectorupdate.go` together with the WAL
application code embedded in the repository), and proofs about the
behaviour of its operations.

Maps (`map[sectorID]...`, `map[uint16]*storageFolder`) are embedded as
association lists over `Nat` keys.  Disk files are embedded as
association lists from slot index to the stored record.  Fallible I/O
(writes, syncs) is embedded through a `DiskEnv` of fault-injection
flags: each primitive succeeds exactly when its flag is set, mirroring
the error branch of the corresponding Go call site.
-/

namespace Skynet

/-- Lookup in an association list keyed by `Nat` (Go map read). -/
def alookup {α : Type} (k : Nat) : List (Nat × α) → Option α
  | [] => none
  | (k', v) :: t => if k = k' then some v else alookup k t

/-- Insert-or-replace in an association list (Go map write). -/
def aset {α : Type} (k : Nat) (v : α) : List (Nat × α) → List (Nat × α)
  | [] => [(k, v)]
  | (k', v') :: t => if k = k' then (k, v) :: t else (k', v') :: aset k v t

/-- Remove every binding of a key (Go map delete; keys are unique in Go maps,
the embedding removes all occurrences so that no uniqueness side condition is
needed). -/
def aerase {α : Type} (k : Nat) : List (Nat × α) → List (Nat × α)
  | [] => []
  | (k', v') :: t => if k = k' then aerase k t else (k', v') :: aerase k t

theorem alookup_aset_same {α : Type} (k : Nat) (v : α) (l : List (Nat × α)) :
    alookup k (aset k v l) = some v := by
  induction l with
  | nil => simp [aset, alookup]
  | cons p t ih =>
    by_cases h : k = p.1
    · simp [aset, h, alookup]
    · simp [aset, h, alookup, ih]

theorem alookup_aset_ne {α : Type} (k k' : Nat) (v : α) (l : List (Nat × α))
    (h : k' ≠ k) : alookup k' (aset k v l) = alookup k' l := by
  induction l with
  | nil => simp [aset, alookup, h]
  | cons p t ih =>
    by_cases hk : k = p.1
    · subst hk
      simp [aset, alookup, h, ih]
    · by_cases hk' : k' = p.1
      · simp [aset, hk, alookup, hk']
      · simp [aset, hk, alookup, hk', ih]

theorem alookup_aerase_same {α : Type} (k : Nat) (l : List (Nat × α)) :
    alookup k (aerase k l) = none := by
  induction l with
  | nil => simp [aerase, alookup]
  | cons p t ih =>
    by_cases h : k = p.1
    · simp only [aerase, if_pos h, ← h]
      exact ih
    · simp [aerase, h, alookup, ih]

theorem alookup_aerase_ne {α : Type} (k k' : Nat) (l : List (Nat × α))
    (h : k' ≠ k) : alookup k' (aerase k l) = alookup k' l := by
  induction l with
  | nil => simp [aerase, alookup]
  | cons p t ih =>
    by_cases hk : k = p.1
    · subst hk
      simp [aerase, alookup, h, ih]
    · by_cases hk' : k' = p.1
      · simp [aerase, hk, alookup, hk']
      · simp [aerase, hk, alookup, hk', ih]

theorem aerase_aset_of_absent {α : Type} (k : Nat) (v : α) (l : List (Nat × α))
    (h : alookup k l = none) : aerase k (aset k v l) = l := by
  induction l with
  | nil => simp [aset, aerase]
  | cons p t ih =>
    by_cases hk : k = p.1
    · simp [alookup, hk] at h
    · simp [alookup, hk] at h
      simp [aset, hk, aerase, ih h]

theorem aset_self {α : Type} (k : Nat) (v : α) (l : List (Nat × α))
    (h : alookup k l = some v) : aset k v l = l := by
  induction l with
  | nil => simp [alookup] at h
  | cons p t ih =>
    by_cases hk : k = p.1
    · simp [alookup, hk] at h
      cases p with
      | mk k1 v1 => simp_all [aset]
    · simp [alookup, hk] at h
      simp [aset, hk, ih h]

theorem aset_aset_same {α : Type} (k : Nat) (v w : α) (l : List (Nat × α)) :
    aset k w (aset k v l) = aset k w l := by
  induction l with
  | nil => simp [aset]
  | cons p t ih =>
    by_cases hk : k = p.1
    · simp [aset, hk]
    · simp [aset, hk, ih]

theorem listSet_listSet {α : Type} (l : List α) (i : Nat) (a b : α) :
    (l.set i a).set i b = l.set i b := by
  induction l generalizing i with
  | nil => simp
  | cons x t ih =>
    cases i with
    | zero => simp
    | succ n => simp [List.set, ih]

theorem listSet_same_of_get {α : Type} (l : List α) (i : Nat) (a : α)
    (h : l[i]? = some a) : l.set i a = l := by
  induction l generalizing i with
  | nil => simp at h
  | cons x t ih =>
    cases i with
    | zero => simp at h; simp [h]
    | succ n => simp at h; simp [List.set, ih n h]

theorem get_listSet_same {α : Type} (l : List α) (i : Nat) (a : α)
    (h : i < l.length) : (l.set i a)[i]? = some a := by
  induction l generalizing i with
  | nil => simp at h
  | cons x t ih =>
    cases i with
    | zero => simp
    | succ n =>
      simp only [List.length_cons, Nat.succ_lt_succ_iff] at h
      simp [List.set, ih n h]

/-- Modelled from the spec: `SECTOR_SIZE` is the fixed sector payload size;
the source uses `modules.SectorSize` = 4 MiB (the constant's definition is
not part of the provided sources). -/
def SectorSize : Nat := 4194304

/-- Embeds `sectorLocation` (sectorupdate.go): where a sector lives and its
virtual-reference count. -/
structure SectorLocation where
  index : Nat
  storageFolder : Nat
  count : Nat
deriving DecidableEq, Repr

/-- Embeds `sectorUpdate` (WAL file): an idempotent update to sector metadata. -/
structure SectorUpdate where
  count : Nat
  folder : Nat
  id : Nat
  index : Nat
deriving DecidableEq, Repr

/-- A storage folder: in-memory usage bitmap and deferred-release map,
plus the two on-disk files (metadata file: slot ↦ (sector id, count);
sector file: slot ↦ payload), embedded as association lists by slot. -/
structure StorageFolder where
  path : String
  usage : List Bool
  availableSectors : List (Nat × Nat)
  atomicUnavailable : Bool
  metadataFile : List (Nat × (Nat × Nat))
  sectorFile : List (Nat × List Nat)
deriving DecidableEq, Repr

/-- The contract manager state visible to the sector operations:
the folder registry (keyed by folder index) and the sector index. -/
structure CMState where
  storageFolders : List (Nat × StorageFolder)
  sectorLocations : List (Nat × SectorLocation)
deriving DecidableEq, Repr

/-- Fault-injection environment: each Boolean decides whether the
corresponding I/O primitive succeeds, and the first two model the
threadgroup shutdown gate and the `Disrupt("diskTrouble")` test hook. -/
structure DiskEnv where
  shuttingDown : Bool
  disruptDiskTrouble : Bool
  writeSectorOk : Bool
  writeMetaOk : Bool
  sectorSyncOk : Bool
  metaSyncOk : Bool
deriving DecidableEq, Repr

/-- The all-healthy environment: not shutting down, all I/O succeeds. -/
def DiskEnv.ok : DiskEnv :=
  { shuttingDown := false, disruptDiskTrouble := false, writeSectorOk := true
    writeMetaOk := true, sectorSyncOk := true, metaSyncOk := true }

/-- Errors of the sector store.  Error wrapping (`errors.AddContext`,
`build.ExtendErr`) is dropped: the embedding keeps the base error value,
which is what `errors.Contains` inspects. -/
inductive CMErr
  | malformedSector
  | outOfStorage
  | maxVirtualSectors
  | sectorNotFound
  | storageFolderNotFound
  | diskTrouble
  | badStorageFolderIndex
  | alreadyExists
  | shuttingDown
  | syncFailed
  | openFailed
  | decodeFailed
  | wrongUpdateName
  | noFreeSlot
  | insufficientCapacity
deriving DecidableEq, Repr

/-- Modelled from the spec: `managedSectorID` (absent from the provided
sources) derives a collision-free 12-byte id from the Merkle root via a
salted hash; the embedding uses the injective identity on abstract roots. -/
def managedSectorID (root : Nat) : Nat := root

/-- Replace one folder in the registry. -/
def updFolder (st : CMState) (f : Nat) (sf : StorageFolder) : CMState :=
  { st with storageFolders := aset f sf st.storageFolders }

/-- Modelled from the spec: `randFreeSector` (absent from the provided
sources) picks a free slot inside the usage bitmap by rejection sampling;
the embedding determinises the random choice to the first free slot
(none of the verified claims depends on which free slot is chosen). -/
def firstFreeSlot : List Bool → Option Nat
  | [] => none
  | b :: t => if b then (firstFreeSlot t).map (· + 1) else some 0

/-- A folder has a vacant slot. -/
def hasVacancy (sf : StorageFolder) : Bool :=
  (firstFreeSlot sf.usage).isSome

/-- Modelled from the spec: `availableStorageFolders` (absent from the
provided sources) returns the folders that are not quarantined
(`atomicUnavailable == 0`), mirroring the checks at sectorupdate.go:18
and :175. -/
def availableStorageFolders (st : CMState) : List (Nat × StorageFolder) :=
  st.storageFolders.filter (fun p => !p.2.atomicUnavailable)

/-- Modelled from the spec: `vacancyStorageFolder` (absent from the
provided sources) picks a storage folder with a vacant slot from the
candidate list and reports its position (the source reports `-1` when no
folder qualifies, embedded as `none`).  The emptiest-folder tie-break is
determinised to the first qualifying folder; no verified claim depends on
the selection policy. -/
def vacancyStorageFolder : List (Nat × StorageFolder) → Option ((Nat × StorageFolder) × Nat)
  | [] => none
  | p :: t =>
    if hasVacancy p.2 then some (p, 0)
    else (vacancyStorageFolder t).map (fun q => (q.1, q.2 + 1))

/-- Embeds `cm.writeSector` (sectorupdate.go:342): positional write of a sector
payload into the folder's sector file; fails when the environment says the
disk write fails (the success/failure write counters are not modelled). -/
def cmWriteSector (env : DiskEnv) (sf : StorageFolder) (slot : Nat) (data : List Nat) :
    Option CMErr × StorageFolder :=
  if env.writeSectorOk then
    (none, { sf with sectorFile := aset slot data sf.sectorFile })
  else
    (some .diskTrouble, sf)

/-- Embeds `cm.writeSectorMetadata` (sectorupdate.go:329): write the fixed-size
metadata record `(id, count)` at the slot of the folder's metadata file. -/
def cmWriteSectorMetadata (env : DiskEnv) (sf : StorageFolder) (su : SectorUpdate) :
    Option CMErr × StorageFolder :=
  if env.writeMetaOk then
    (none, { sf with metadataFile := aset su.index (su.id, su.count) sf.metadataFile })
  else
    (some .diskTrouble, sf)

/-- The rollback performed by the deferred cleanup in
`managedAddPhysicalSector` (sectorupdate.go:91-98): clear the tentative
usage bit and evict the `availableSectors` entry. -/
def rollbackTentative (st : CMState) (f : Nat) (id : Nat) (slot : Nat) : CMState :=
  match alookup f st.storageFolders with
  | none => st
  | some sf =>
    updFolder st f
      { sf with usage := sf.usage.set slot false
                availableSectors := aerase id sf.availableSectors }

/-- One attempt of the closure inside `managedAddPhysicalSector`
(sectorupdate.go:84-134), after the folder `f = sf` and free slot `slot`
have been chosen: set the usage bit and record the tentative slot in
`availableSectors`, write the sector data, write the metadata, sync both
files, and either promote the sector into `sectorLocations` or roll the
tentative slot back. -/
def addPhysicalAttempt (env : DiskEnv) (id : Nat) (data : List Nat) (count : Nat)
    (f : Nat) (sf : StorageFolder) (slot : Nat) (st : CMState) : Option CMErr × CMState :=
  let sf1 := { sf with usage := sf.usage.set slot true
                       availableSectors := aset id slot sf.availableSectors }
  let st1 := updFolder st f sf1
  match cmWriteSector env sf1 slot data with
  | (some e, sf') => (some e, rollbackTentative (updFolder st1 f sf') f id slot)
  | (none, sf2) =>
    let st2 := updFolder st1 f sf2
    match cmWriteSectorMetadata env sf2 ⟨count, f, id, slot⟩ with
    | (some e, sf') => (some e, rollbackTentative (updFolder st2 f sf') f id slot)
    | (none, sf3) =>
      let st3 := updFolder st2 f sf3
      if env.sectorSyncOk && env.metaSyncOk then
        let sf4 := { sf3 with availableSectors := aerase id sf3.availableSectors }
        let st4 := updFolder st3 f sf4
        (none, { st4 with sectorLocations := aset id ⟨slot, f, count⟩ st4.sectorLocations })
      else
        (some .syncFailed, rollbackTentative st3 f id slot)

/-- The retry loop of `managedAddPhysicalSector` (sectorupdate.go:54-149):
pick a vacant folder, attempt the write, and on failure drop the folder
from the candidate list and retry; when no candidate remains the call
fails with the out-of-storage error.  The loop runs at most once per
candidate, so the fuel `candidates.length + 1` never runs out. -/
def addPhysicalLoop (env : DiskEnv) (id : Nat) (data : List Nat) (count : Nat) :
    Nat → List (Nat × StorageFolder) → CMState → Option CMErr × CMState
  | 0, _, st => (some .outOfStorage, st)
  | fuel + 1, candidates, st =>
    match vacancyStorageFolder candidates with
    | none => (some .outOfStorage, st)
    | some ((f, sf), pos) =>
      let attempt :=
        match firstFreeSlot sf.usage with
        | none => (some CMErr.noFreeSlot, st)
        | some slot => addPhysicalAttempt env id data count f sf slot st
      match attempt with
      | (none, st') => (none, st')
      | (some _, st') => addPhysicalLoop env id data count fuel (candidates.eraseIdx pos) st'

/-- Embeds `managedAddPhysicalSector` (sectorupdate.go:41-154): sanity-check the
payload size, then run the folder retry loop. -/
def managedAddPhysicalSector (env : DiskEnv) (id : Nat) (data : List Nat) (count : Nat)
    (st : CMState) : Option CMErr × CMState :=
  if data.length ≠ SectorSize then (some .malformedSector, st)
  else
    let candidates := availableStorageFolders st
    addPhysicalLoop env id data count (candidates.length + 1) candidates st

/-- Embeds `managedAddVirtualSector` (sectorupdate.go:157-199): refuse at the
65535 reference cap, update the in-memory count, then write and sync the
metadata record; a failed write rolls the in-memory count back, a failed
sync does not. -/
def managedAddVirtualSector (env : DiskEnv) (id : Nat) (location : SectorLocation)
    (st : CMState) : Option CMErr × CMState :=
  if location.count = 65535 then (some .maxVirtualSectors, st)
  else
    let location1 := { location with count := location.count + 1 }
    let su : SectorUpdate := ⟨location1.count, location1.storageFolder, id, location1.index⟩
    match alookup su.folder st.storageFolders with
    | none => (some .storageFolderNotFound, st)
    | some sf =>
      if sf.atomicUnavailable then (some .storageFolderNotFound, st)
      else
        let st1 := { st with sectorLocations := aset id location1 st.sectorLocations }
        match cmWriteSectorMetadata env sf su with
        | (some e, _) =>
          let location2 := { location1 with count := location1.count - 1 }
          (some e, { st1 with sectorLocations := aset id location2 st1.sectorLocations })
        | (none, sf2) =>
          let st2 := updFolder st1 su.folder sf2
          if env.metaSyncOk then (none, st2) else (some .syncFailed, st2)

/-- Observable events of a sector-removal transaction, used to state the
ordering guarantees: transaction signals and the individual state
mutations, in the order the code performs them. -/
inductive Ev
  | metadataWrite (folder slot id count : Nat)
  | metadataSync (folder : Nat)
  | deleteLocation (id : Nat)
  | addAvailable (folder id slot : Nat)
  | updateLocation (id count : Nat)
  | clearUsage (folder slot : Nat)
  | removeAvailable (folder id : Nat)
  | signalSetupComplete
  | signalUpdatesApplied
deriving DecidableEq, Repr

/-- Embeds `managedRemoveSector` (sectorupdate.go:260-325): decrement the count,
write and sync the metadata record; at count 0 delete the index entry,
park the slot in `availableSectors`, and - after the disk commit - clear
the usage bit and drop the `availableSectors` entry.  The third component
is the trace of completed mutations in execution order. -/
def managedRemoveSector (env : DiskEnv) (id : Nat) (st : CMState) :
    Option CMErr × CMState × List Ev :=
  match alookup id st.sectorLocations with
  | none => (some .sectorNotFound, st, [])
  | some location0 =>
    match alookup location0.storageFolder st.storageFolders with
    | none => (some .storageFolderNotFound, st, [])
    | some sf =>
      if sf.atomicUnavailable then (some .storageFolderNotFound, st, [])
      else
        let location := { location0 with count := location0.count - 1 }
        let su : SectorUpdate := ⟨location.count, location.storageFolder, id, location.index⟩
        match cmWriteSectorMetadata env sf su with
        | (some e, _) => (some e, st, [])
        | (none, sf1) =>
          let st1 := updFolder st location.storageFolder sf1
          let evW := Ev.metadataWrite location.storageFolder location.index id location.count
          if env.metaSyncOk then
            if location.count = 0 then
              let sf2 := { sf1 with availableSectors := aset id location.index sf1.availableSectors }
              let st2 := { updFolder st1 location.storageFolder sf2 with
                           sectorLocations := aerase id st1.sectorLocations }
              let sf3 := { sf2 with usage := sf2.usage.set location.index false
                                    availableSectors := aerase id sf2.availableSectors }
              let st3 := updFolder st2 location.storageFolder sf3
              (none, st3,
                [evW, .metadataSync location.storageFolder, .deleteLocation id,
                 .addAvailable location.storageFolder id location.index,
                 .clearUsage location.storageFolder location.index,
                 .removeAvailable location.storageFolder id])
            else
              let st2 := { st1 with sectorLocations := aset id location st1.sectorLocations }
              (none, st2,
                [evW, .metadataSync location.storageFolder, .updateLocation id location.count])
          else
            (some .syncFailed, st1, [evW])

/-- Embeds `managedDeleteSector` (sectorupdate.go:202-256): force the count to 0,
write and sync the metadata record, delete the index entry, park and then
release the slot, clearing the usage bit only after the disk commit. -/
def managedDeleteSector (env : DiskEnv) (id : Nat) (st : CMState) :
    Option CMErr × CMState :=
  match alookup id st.sectorLocations with
  | none => (some .sectorNotFound, st)
  | some location =>
    match alookup location.storageFolder st.storageFolders with
    | none => (some .storageFolderNotFound, st)
    | some sf =>
      if sf.atomicUnavailable then (some .storageFolderNotFound, st)
      else
        let su : SectorUpdate := ⟨0, location.storageFolder, id, location.index⟩
        match cmWriteSectorMetadata env sf su with
        | (some e, _) => (some e, st)
        | (none, sf1) =>
          if env.metaSyncOk then
            let sf2 := { sf1 with availableSectors := aset id location.index sf1.availableSectors }
            let st2 := { updFolder st location.storageFolder sf2 with
                         sectorLocations := aerase id st.sectorLocations }
            let sf3 := { sf2 with usage := sf2.usage.set location.index false
                                  availableSectors := aerase id sf2.availableSectors }
            (none, updFolder st2 location.storageFolder sf3)
          else
            (some .syncFailed, updFolder st location.storageFolder sf1)

/-- Embeds `AddSector` (sectorupdate.go:354-400).  The threadgroup gate and the
`Disrupt("diskTrouble")` hook come first; then the sector id decides
between the virtual and the physical path.  Modelled from the spec: the
update constructors `addVirtualSectorUpate` / `addPhysicalSectorUpate`
and their application are absent from the provided sources; per the spec
the transaction carries out exactly the corresponding managed operation,
so the dispatch is embedded as a direct call. -/
def AddSector (env : DiskEnv) (root : Nat) (data : List Nat) (st : CMState) :
    Option CMErr × CMState :=
  if env.shuttingDown then (some .shuttingDown, st)
  else if env.disruptDiskTrouble then (some .diskTrouble, st)
  else
    let id := managedSectorID root
    match alookup id st.sectorLocations with
    | some location => managedAddVirtualSector env id location st
    | none => managedAddPhysicalSector env id data 1 st

/-- Embeds `RemoveSector` (sectorupdate.go:478-490) routed through
`createAndApplyTransaction` (WAL file:353-376): signal setup completion,
apply the removal, then signal the updates applied.  The trace records
the transaction signals around the removal's own events; the dispatch of
the (absent) `removeSectorUpdate` constructor is modelled from the spec
as running `managedRemoveSector`. -/
def RemoveSector (env : DiskEnv) (root : Nat) (st : CMState) :
    Option CMErr × CMState × List Ev :=
  if env.shuttingDown then (some .shuttingDown, st, [])
  else
    let id := managedSectorID root
    match managedRemoveSector env id st with
    | (some e, st', evs) => (some e, st', Ev.signalSetupComplete :: evs)
    | (none, st', evs) =>
      (none, st', Ev.signalSetupComplete :: (evs ++ [Ev.signalUpdatesApplied]))

/-- Embeds `DeleteSector` (sectorupdate.go:462-474), with the same modelled
dispatch as `RemoveSector`. -/
def DeleteSector (env : DiskEnv) (root : Nat) (st : CMState) :
    Option CMErr × CMState :=
  if env.shuttingDown then (some .shuttingDown, st)
  else managedDeleteSector env (managedSectorID root) st

/-- WAL update name (WAL file:223). -/
def addStorageFolderUpdateName : String := "AddStorageFolderUpdate"

/-- WAL update name (WAL file:224). -/
def sectorMDUpdateName : String := "SectorMetadataUpdate"

/-- WAL update name (WAL file:225). -/
def sectorDataUpdateName : String := "SectorDataUpdate"

/-- WAL update name (WAL file:226). -/
def removeStorageFolderUpdateName : String := "RemoveStorageFolderUpdate"

/-- WAL update name (WAL file:227). -/
def growStorageFolderUpdateName : String := "GrowStorageFolderUpdate"

/-- WAL update name (WAL file:228). -/
def shrinkStorageFolderUpdateName : String := "ShrinkStorageFolderUpdate"

/-- The catalogued WAL update names: exactly the cases of the `switch` in
`applyUpdates` (WAL file:330-343). -/
def cataloguedUpdateNames : List String :=
  [addStorageFolderUpdateName, sectorMDUpdateName, sectorDataUpdateName,
   removeStorageFolderUpdateName, shrinkStorageFolderUpdateName,
   growStorageFolderUpdateName]

/-- The decoded instruction payload of a WAL update.  The source stores a
marshalled byte string; the embedding keeps the decoded view.  `empty` is
the decoded view of the zero value (`nil` instructions). -/
inductive WalInstr
  | addFolder (path : String) (usageLength : Nat)
  | sectorMD (path : String) (su : SectorUpdate)
  | sectorData (path : String) (slot : Nat) (data : List Nat)
  | removeFolder (index : Nat) (path : String)
  | shrinkFolder (index : Nat) (newSectorCount : Nat) (force : Bool)
  | growFolder (index : Nat) (newSectorCount : Nat)
  | empty
deriving DecidableEq, Repr

/-- Embeds `walUpdate` (WAL file:241-245): a named update and its instructions
(the reusable file handle is not modelled; the appliers resolve the
folder from the path). -/
structure WalUpdate where
  name : String
  instr : WalInstr
deriving DecidableEq, Repr

/-- The Go zero value of `walUpdate` - empty name, nil instructions -
which is what `AddSectorBatch` applies for an unknown root
(sectorupdate.go:443-447). -/
def zeroWalUpdate : WalUpdate := { name := "", instr := .empty }

/-- Modelled from the spec: `managedAddStorageFolder` is absent from the
provided sources; per the spec an `AddStorageFolder` update creates the
files, zeroes the usage bitmap and registers the folder at the next free
index (determinised to one past the largest index in use), failing with
`AlreadyExists` for a duplicate path. -/
def managedAddStorageFolder (path : String) (usageLength : Nat) (st : CMState) :
    Option CMErr × CMState :=
  if st.storageFolders.any (fun p => p.2.path = path) then (some .alreadyExists, st)
  else
    let idx := (st.storageFolders.map Prod.fst).foldr max 0 + 1
    let sf : StorageFolder :=
      { path := path, usage := List.replicate usageLength false, availableSectors := []
        atomicUnavailable := false, metadataFile := [], sectorFile := [] }
    (none, { st with storageFolders := aset idx sf st.storageFolders })

/-- Find a folder by the path of its files. -/
def folderByPath (st : CMState) (path : String) : Option (Nat × StorageFolder) :=
  st.storageFolders.find? (fun p => p.2.path = path)

/-- Embeds `applyAddStorageFolderUpdate` (WAL file:380-397). -/
def applyAddStorageFolderUpdate (u : WalUpdate) (st : CMState) : Option CMErr × CMState :=
  if u.name ≠ addStorageFolderUpdateName then (some .wrongUpdateName, st)
  else
    match u.instr with
    | .addFolder path usageLength => managedAddStorageFolder path usageLength st
    | _ => (some .decodeFailed, st)

/-- Embeds `applySectorDataUpdate` (WAL file:401-430): decode, resolve the file,
write the sector and sync; a failed write surfaces the disk-trouble
error (`errors.Compose(err, errDiskTrouble)`, flattened to its
disk-trouble component). -/
def applySectorDataUpdate (env : DiskEnv) (u : WalUpdate) (st : CMState) :
    Option CMErr × CMState :=
  if u.name ≠ sectorDataUpdateName then (some .wrongUpdateName, st)
  else
    match u.instr with
    | .sectorData path slot data =>
      match folderByPath st path with
      | none => (some .openFailed, st)
      | some (f, sf) =>
        if env.writeSectorOk then
          let sf1 := { sf with sectorFile := aset slot data sf.sectorFile }
          if env.sectorSyncOk then (none, updFolder st f sf1)
          else (some .syncFailed, updFolder st f sf1)
        else (some .diskTrouble, st)
    | _ => (some .decodeFailed, st)

/-- Embeds `applySectorMetadataUpdate` (WAL file:434-462). -/
def applySectorMetadataUpdate (env : DiskEnv) (u : WalUpdate) (st : CMState) :
    Option CMErr × CMState :=
  if u.name ≠ sectorMDUpdateName then (some .wrongUpdateName, st)
  else
    match u.instr with
    | .sectorMD path su =>
      match folderByPath st path with
      | none => (some .openFailed, st)
      | some (f, sf) =>
        if env.writeMetaOk then
          let sf1 := { sf with metadataFile := aset su.index (su.id, su.count) sf.metadataFile }
          if env.metaSyncOk then (none, updFolder st f sf1)
          else (some .syncFailed, updFolder st f sf1)
        else (some .diskTrouble, st)
    | _ => (some .decodeFailed, st)

/-- Modelled from the spec: `managedEmptyStorageFolder` is absent from the
provided sources; it migrates every sector above `startingPoint` out of
the folder, failing with the bad-storage-folder-index error when the
folder index is not registered.  Migration itself is not modelled: the
embedding only admits folders that hold no sector in the truncated range
(no verified claim exercises a successful migration). -/
def managedEmptyStorageFolder (index : Nat) (startingPoint : Nat) (st : CMState) :
    Option CMErr × CMState :=
  match alookup index st.storageFolders with
  | none => (some .badStorageFolderIndex, st)
  | some sf =>
    if (sf.usage.drop startingPoint).any (fun b => b) then
      (some .insufficientCapacity, st)
    else (none, st)

/-- Embeds `applyRemoveStorageFolderUpdate` (WAL file:466-487): empty the folder,
then commit the removal by dropping it from the registry
(`commitStorageFolderRemoval`, absent from the provided sources, is
modelled from the spec as the registry drop). -/
def applyRemoveStorageFolderUpdate (u : WalUpdate) (st : CMState) : Option CMErr × CMState :=
  if u.name ≠ removeStorageFolderUpdateName then (some .wrongUpdateName, st)
  else
    match u.instr with
    | .removeFolder index _path =>
      match managedEmptyStorageFolder index 0 st with
      | (some e, st') => (some e, st')
      | (none, st') => (none, { st' with storageFolders := aerase index st'.storageFolders })
    | _ => (some .decodeFailed, st)

/-- Embeds `applyShrinkStorageFolderUpdate` (WAL file:491-513): empty the tail of
the folder; an error aborts only when `force` is unset; then commit the
reduction (`commitStorageFolderReduction`, absent from the provided
sources, is modelled from the spec as truncating the usage bitmap). -/
def applyShrinkStorageFolderUpdate (u : WalUpdate) (st : CMState) : Option CMErr × CMState :=
  if u.name ≠ shrinkStorageFolderUpdateName then (some .wrongUpdateName, st)
  else
    match u.instr with
    | .shrinkFolder index newSectorCount force =>
      match managedEmptyStorageFolder index newSectorCount st with
      | (some e, st') =>
        if force then
          match alookup index st'.storageFolders with
          | none => (none, st')
          | some sf => (none, updFolder st' index { sf with usage := sf.usage.take newSectorCount })
        else (some e, st')
      | (none, st') =>
        match alookup index st'.storageFolders with
        | none => (none, st')
        | some sf => (none, updFolder st' index { sf with usage := sf.usage.take newSectorCount })
    | _ => (some .decodeFailed, st)

/-- Embeds `applyGrowStorageFolderUpdate` (WAL file:517-538)
(`managedGrowStorageFolder` / `commitStorageFolderExtension`, absent from
the provided sources, are modelled from the spec as extending the usage
bitmap with zeroed slots). -/
def applyGrowStorageFolderUpdate (u : WalUpdate) (st : CMState) : Option CMErr × CMState :=
  if u.name ≠ growStorageFolderUpdateName then (some .wrongUpdateName, st)
  else
    match u.instr with
    | .growFolder index newSectorCount =>
      match alookup index st.storageFolders with
      | none => (some .badStorageFolderIndex, st)
      | some sf =>
        let sf1 := { sf with
          usage := sf.usage ++ List.replicate (newSectorCount - sf.usage.length) false }
        (none, updFolder st index sf1)
    | _ => (some .decodeFailed, st)

/-- The `switch update.Name` dispatch of `applyUpdates` (WAL file:330-343):
exactly the six catalogued cases; with no `default` case, an update with
any other name leaves `err` nil and the state untouched. -/
def applyUpdate (env : DiskEnv) (u : WalUpdate) (st : CMState) : Option CMErr × CMState :=
  if u.name = addStorageFolderUpdateName then applyAddStorageFolderUpdate u st
  else if u.name = sectorMDUpdateName then applySectorMetadataUpdate env u st
  else if u.name = sectorDataUpdateName then applySectorDataUpdate env u st
  else if u.name = removeStorageFolderUpdateName then applyRemoveStorageFolderUpdate u st
  else if u.name = shrinkStorageFolderUpdateName then applyShrinkStorageFolderUpdate u st
  else if u.name = growStorageFolderUpdateName then applyGrowStorageFolderUpdate u st
  else (none, st)

/-- Embeds `applyUpdates` (WAL file:327-349): apply the updates one by one,
aborting at the first error (context wrapping dropped). -/
def applyUpdates (env : DiskEnv) : List WalUpdate → CMState → Option CMErr × CMState
  | [], st => (none, st)
  | u :: rest, st =>
    match applyUpdate env u st with
    | (some e, st') => (some e, st')
    | (none, st') => applyUpdates env rest st'

/-- The per-root body of `AddSectorBatch` (sectorupdate.go:425-448): look
the root up; an existing root gets a virtual add (dispatch modelled from
the spec as in `AddSector`), an unknown root leaves the update at its
zero value, which is handed to `applyUpdates` unchanged; the returned
error is discarded either way. -/
def perRootAdd (env : DiskEnv) (st : CMState) (root : Nat) : CMState :=
  let id := managedSectorID root
  match alookup id st.sectorLocations with
  | some location => (managedAddVirtualSector env id location st).2
  | none => (applyUpdates env [zeroWalUpdate] st).2

/-- Embeds `AddSectorBatch` (sectorupdate.go:406-454): after the threadgroup
gate, process every root with the per-sector errors discarded and return
nil at the interface.  The semaphore-bounded goroutines are determinised
to a sequential fold (the per-sector locks serialise same-root work; the
claims below concern only the returned error and per-root effects). -/
def AddSectorBatch (env : DiskEnv) (roots : List Nat) (st : CMState) :
    Option CMErr × CMState :=
  if env.shuttingDown then (some .shuttingDown, st)
  else (none, roots.foldl (perRootAdd env) st)

/-- Embeds `RemoveSectorBatch` (sectorupdate.go:496-523): same shape for
removals; the per-root `createAndApplyTransaction` error is explicitly
ignored (line 515). -/
def RemoveSectorBatch (env : DiskEnv) (roots : List Nat) (st : CMState) :
    Option CMErr × CMState :=
  if env.shuttingDown then (some .shuttingDown, st)
  else
    (none, roots.foldl (fun s r => (managedRemoveSector env (managedSectorID r) s).2.1) st)

/-- The replay loop of `loadWal` (WAL file:614-636), indexed by the
position of the next transaction: apply a transaction's updates; an
error containing `errBadStorageFolderIndex` still signals the
transaction applied and replay continues, any other error aborts the
load; successful transactions are signalled as well.  Returns the error,
the final state, and the indices of the transactions whose
`SignalUpdatesApplied` ran, in order. -/
def loadWalAux (env : DiskEnv) : Nat → List (List WalUpdate) → CMState →
    Option CMErr × CMState × List Nat
  | _, [], st => (none, st, [])
  | i, txn :: rest, st =>
    match applyUpdates env txn st with
    | (some e, st') =>
      if e = CMErr.badStorageFolderIndex then
        ((loadWalAux env (i + 1) rest st').1, (loadWalAux env (i + 1) rest st').2.1,
         i :: (loadWalAux env (i + 1) rest st').2.2)
      else (some e, st', [])
    | (none, st') =>
      ((loadWalAux env (i + 1) rest st').1, (loadWalAux env (i + 1) rest st').2.1,
       i :: (loadWalAux env (i + 1) rest st').2.2)

/-- Embeds `loadWal` (WAL file:614-636) on the recovered transactions. -/
def loadWal (env : DiskEnv) (txns : List (List WalUpdate)) (st : CMState) :
    Option CMErr × CMState × List Nat :=
  loadWalAux env 0 txns st

/-- Embeds `k` consecutive `AddSector` calls with the same root and payload,
stopping at the first error. -/
def iterAdd (env : DiskEnv) (root : Nat) (data : List Nat) :
    Nat → CMState → Option CMErr × CMState
  | 0, st => (none, st)
  | k + 1, st =>
    match AddSector env root data st with
    | (none, st') => iterAdd env root data k st'
    | (some e, st') => (some e, st')

/-- Embeds `k` consecutive `RemoveSector` calls with the same root, stopping at
the first error. -/
def iterRemove (env : DiskEnv) (root : Nat) : Nat → CMState → Option CMErr × CMState
  | 0, st => (none, st)
  | k + 1, st =>
    match RemoveSector env root st with
    | (none, st', _) => iterRemove env root k st'
    | (some e, st', _) => (some e, st')

/-- The sector with this id is committed at `(f, slot)` with reference
count `j`: present in `sectorLocations`, no deferred-release entry, the
usage bit set, and the folder healthy. -/
def sectorPinned (st : CMState) (id f slot j : Nat) : Prop :=
  alookup id st.sectorLocations = some ⟨slot, f, j⟩ ∧
  ∃ sf, alookup f st.storageFolders = some sf ∧ sf.atomicUnavailable = false ∧
    alookup id sf.availableSectors = none ∧ sf.usage[slot]? = some true

/-- The slot is free again: the sector is absent from `sectorLocations`,
its `availableSectors` entry is removed and its usage bit is cleared. -/
def slotFree (st : CMState) (id f slot : Nat) : Prop :=
  alookup id st.sectorLocations = none ∧
  ∃ sf, alookup f st.storageFolders = some sf ∧
    alookup id sf.availableSectors = none ∧ sf.usage[slot]? = some false

theorem firstFreeSlot_spec (u : List Bool) (i : Nat)
    (h : firstFreeSlot u = some i) : u[i]? = some false := by
  induction u generalizing i with
  | nil => simp [firstFreeSlot] at h
  | cons b t ih =>
    by_cases hb : b
    · simp [firstFreeSlot, hb] at h
      obtain ⟨j, hj, rfl⟩ := h
      simpa using ih j hj
    · simp [firstFreeSlot, hb] at h
      simp [← h, hb]

theorem vacancy_of_exists (l : List (Nat × StorageFolder))
    (h : ∃ p ∈ l, hasVacancy p.2 = true) :
    ∃ p pos, vacancyStorageFolder l = some (p, pos) ∧ hasVacancy p.2 = true ∧ p ∈ l := by
  induction l with
  | nil => simp at h
  | cons q t ih =>
    by_cases hq : hasVacancy q.2
    · exact ⟨q, 0, by simp [vacancyStorageFolder, hq], hq, by simp⟩
    · obtain ⟨p, hp, hv⟩ := h
      rcases List.mem_cons.mp hp with rfl | hpt
      · exact absurd hv hq
      · obtain ⟨p', pos', heq, hv', hmem⟩ := ih ⟨p, hpt, hv⟩
        exact ⟨p', pos' + 1, by simp [vacancyStorageFolder, hq, heq], hv', by simp [hmem]⟩

/-- The folder contents after a fully successful physical-add attempt:
usage bit set, tentative `availableSectors` entry added and then removed
at promotion, both files written. -/
def promotedFolder (sf : StorageFolder) (id : Nat) (data : List Nat)
    (count slot : Nat) : StorageFolder :=
  { sf with usage := sf.usage.set slot true
            availableSectors := aerase id (aset id slot sf.availableSectors)
            sectorFile := aset slot data sf.sectorFile
            metadataFile := aset slot (id, count) sf.metadataFile }

theorem addPhysicalAttempt_ok (env : DiskEnv) (id : Nat) (data : List Nat)
    (count f : Nat) (sf : StorageFolder) (slot : Nat) (st : CMState)
    (h1 : env.writeSectorOk = true) (h2 : env.writeMetaOk = true)
    (h3 : env.sectorSyncOk = true) (h4 : env.metaSyncOk = true) :
    addPhysicalAttempt env id data count f sf slot st =
      (none,
        { storageFolders := aset f (promotedFolder sf id data count slot) st.storageFolders
          sectorLocations := aset id ⟨slot, f, count⟩ st.sectorLocations }) := by
  simp [addPhysicalAttempt, cmWriteSector, cmWriteSectorMetadata, updFolder,
    promotedFolder, h1, h2, h3, h4, aset_aset_same]

theorem addSector_physical_ok (root : Nat) (data : List Nat) (st : CMState)
    (habs : alookup (managedSectorID root) st.sectorLocations = none)
    (hlen : data.length = SectorSize)
    (hvac : ∃ p ∈ st.storageFolders, p.2.atomicUnavailable = false ∧ hasVacancy p.2 = true) :
    ∃ f slot st', AddSector DiskEnv.ok root data st = (none, st') ∧
      sectorPinned st' (managedSectorID root) f slot 1 := by
  obtain ⟨p, hp, hunav, hvacp⟩ := hvac
  have hmemf : p ∈ availableStorageFolders st := by
    simp [availableStorageFolders, List.mem_filter, hp, hunav]
  obtain ⟨q, pos, hveq, hvq, hqmem⟩ :=
    vacancy_of_exists (availableStorageFolders st) ⟨p, hmemf, hvacp⟩
  obtain ⟨f, sf⟩ := q
  have hqunav : sf.atomicUnavailable = false := by
    have := (List.mem_filter.mp hqmem).2
    simpa using this
  obtain ⟨slot, hslot⟩ := Option.isSome_iff_exists.mp hvq
  have hfree : sf.usage[slot]? = some false := firstFreeSlot_spec _ _ hslot
  have hlt : slot < sf.usage.length := by
    by_contra hge
    rw [List.getElem?_eq_none (Nat.le_of_not_lt hge)] at hfree
    exact Option.noConfusion hfree
  have hatt := addPhysicalAttempt_ok DiskEnv.ok (managedSectorID root) data 1 f sf slot st
    rfl rfl rfl rfl
  refine ⟨f, slot,
    { storageFolders := aset f (promotedFolder sf (managedSectorID root) data 1 slot)
        st.storageFolders
      sectorLocations := aset (managedSectorID root) ⟨slot, f, 1⟩ st.sectorLocations },
    ?_, ?_⟩
  · have h1 : AddSector DiskEnv.ok root data st =
        managedAddPhysicalSector DiskEnv.ok (managedSectorID root) data 1 st := by
      simp [AddSector, DiskEnv.ok, habs]
    have h2 : managedAddPhysicalSector DiskEnv.ok (managedSectorID root) data 1 st =
        addPhysicalLoop DiskEnv.ok (managedSectorID root) data 1
          ((availableStorageFolders st).length + 1) (availableStorageFolders st) st := by
      simp [managedAddPhysicalSector, hlen]
    rw [h1, h2, addPhysicalLoop, hveq]
    simp only [hslot, hatt]
  · refine ⟨by simp [alookup_aset_same], promotedFolder sf (managedSectorID root) data 1 slot,
      by simp [alookup_aset_same], by simp [promotedFolder, hqunav],
      by simp [promotedFolder, alookup_aerase_same],
      by simp [promotedFolder, get_listSet_same _ _ _ hlt]⟩

theorem addSector_virtual_ok (root : Nat) (data : List Nat) (st : CMState)
    (f slot j : Nat)
    (hpin : sectorPinned st (managedSectorID root) f slot j) (hj : j ≠ 65535) :
    ∃ st', AddSector DiskEnv.ok root data st = (none, st') ∧
      sectorPinned st' (managedSectorID root) f slot (j + 1) := by
  obtain ⟨hloc, sf, hsf, hunav, hav, husage⟩ := hpin
  refine ⟨{ storageFolders := aset f
              { sf with metadataFile := aset slot (managedSectorID root, j + 1) sf.metadataFile }
              st.storageFolders
            sectorLocations :=
              aset (managedSectorID root) ⟨slot, f, j + 1⟩ st.sectorLocations }, ?_, ?_⟩
  · have h1 : AddSector DiskEnv.ok root data st =
        managedAddVirtualSector DiskEnv.ok (managedSectorID root) ⟨slot, f, j⟩ st := by
      simp [AddSector, DiskEnv.ok, hloc]
    rw [h1]
    simp only [managedAddVirtualSector]
    rw [if_neg hj, hsf]
    simp [hunav, cmWriteSectorMetadata, DiskEnv.ok, updFolder]
  · exact ⟨by simp [alookup_aset_same],
      { sf with metadataFile := aset slot (managedSectorID root, j + 1) sf.metadataFile },
      by simp [alookup_aset_same], hunav, hav, husage⟩

theorem iterAdd_pinned (root : Nat) (data : List Nat) (f slot : Nat) :
    ∀ (m j : Nat) (st : CMState), sectorPinned st (managedSectorID root) f slot j →
      j + m ≤ 65535 →
      ∃ st', iterAdd DiskEnv.ok root data m st = (none, st') ∧
        sectorPinned st' (managedSectorID root) f slot (j + m) := by
  intro m
  induction m with
  | zero => intro j st hpin _; exact ⟨st, by simp [iterAdd], hpin⟩
  | succ m ih =>
    intro j st hpin hle
    have hj : j ≠ 65535 := by omega
    obtain ⟨st1, hadd, hpin1⟩ := addSector_virtual_ok root data st f slot j hpin hj
    obtain ⟨st', hiter, hpin'⟩ := ih (j + 1) st1 hpin1 (by omega)
    have hEq : j + 1 + m = j + (m + 1) := by omega
    rw [hEq] at hpin'
    refine ⟨st', ?_, hpin'⟩
    simp [iterAdd, hadd, hiter]

theorem removeSector_step (root : Nat) (st : CMState) (f slot j : Nat)
    (hpin : sectorPinned st (managedSectorID root) f slot j) (hj : 2 ≤ j) :
    ∃ st' evs, RemoveSector DiskEnv.ok root st = (none, st', evs) ∧
      sectorPinned st' (managedSectorID root) f slot (j - 1) := by
  obtain ⟨hloc, sf, hsf, hunav, hav, husage⟩ := hpin
  have hne : j - 1 ≠ 0 := by omega
  refine ⟨{ storageFolders := aset f
              { sf with metadataFile := aset slot (managedSectorID root, j - 1) sf.metadataFile }
              st.storageFolders
            sectorLocations :=
              aset (managedSectorID root) ⟨slot, f, j - 1⟩ st.sectorLocations },
    [Ev.signalSetupComplete, Ev.metadataWrite f slot (managedSectorID root) (j - 1),
     Ev.metadataSync f, Ev.updateLocation (managedSectorID root) (j - 1),
     Ev.signalUpdatesApplied], ?_, ?_⟩
  · simp [RemoveSector, DiskEnv.ok, managedRemoveSector, hloc, hsf, hunav,
      cmWriteSectorMetadata, updFolder, hne]
  · exact ⟨by simp [alookup_aset_same],
      { sf with metadataFile := aset slot (managedSectorID root, j - 1) sf.metadataFile },
      by simp [alookup_aset_same], hunav, hav, husage⟩

theorem removeSector_final (root : Nat) (st : CMState) (f slot : Nat)
    (hpin : sectorPinned st (managedSectorID root) f slot 1) :
    ∃ st', RemoveSector DiskEnv.ok root st =
      (none, st',
        [Ev.signalSetupComplete, Ev.metadataWrite f slot (managedSectorID root) 0,
         Ev.metadataSync f, Ev.deleteLocation (managedSectorID root),
         Ev.addAvailable f (managedSectorID root) slot, Ev.clearUsage f slot,
         Ev.removeAvailable f (managedSectorID root), Ev.signalUpdatesApplied]) ∧
      slotFree st' (managedSectorID root) f slot := by
  obtain ⟨hloc, sf, hsf, hunav, hav, husage⟩ := hpin
  have hlt : slot < sf.usage.length := by
    by_contra hge
    rw [List.getElem?_eq_none (Nat.le_of_not_lt hge)] at husage
    exact Option.noConfusion husage
  refine ⟨{ storageFolders := aset f
              { sf with usage := sf.usage.set slot false
                        availableSectors :=
                          aerase (managedSectorID root)
                            (aset (managedSectorID root) slot sf.availableSectors)
                        metadataFile := aset slot (managedSectorID root, 0) sf.metadataFile }
              st.storageFolders
            sectorLocations := aerase (managedSectorID root) st.sectorLocations }, ?_, ?_⟩
  · simp [RemoveSector, DiskEnv.ok, managedRemoveSector, hloc, hsf, hunav,
      cmWriteSectorMetadata, updFolder, aset_aset_same]
  · refine ⟨by simp [alookup_aerase_same],
      { sf with usage := sf.usage.set slot false
                availableSectors :=
                  aerase (managedSectorID root)
                    (aset (managedSectorID root) slot sf.availableSectors)
                metadataFile := aset slot (managedSectorID root, 0) sf.metadataFile },
      by simp [alookup_aset_same], by simp [alookup_aerase_same], ?_⟩
    exact get_listSet_same _ _ _ hlt

theorem iterRemove_pinned (root : Nat) (f slot : Nat) :
    ∀ (m j : Nat) (st : CMState), sectorPinned st (managedSectorID root) f slot j →
      m < j →
      ∃ st', iterRemove DiskEnv.ok root m st = (none, st') ∧
        sectorPinned st' (managedSectorID root) f slot (j - m) := by
  intro m
  induction m with
  | zero => intro j st hpin _; exact ⟨st, by simp [iterRemove], hpin⟩
  | succ m ih =>
    intro j st hpin hlt
    obtain ⟨st1, evs, hrem, hpin1⟩ := removeSector_step root st f slot j hpin (by omega)
    obtain ⟨st', hiter, hpin'⟩ := ih (j - 1) st1 hpin1 (by omega)
    refine ⟨st', ?_, by have : j - 1 - m = j - (m + 1) := by omega
                        rwa [this] at hpin'⟩
    simp [iterRemove, hrem, hiter]

theorem iterRemove_split (root : Nat) :
    ∀ (a : Nat) (st st' : CMState), iterRemove DiskEnv.ok root a st = (none, st') →
      ∀ b, iterRemove DiskEnv.ok root (a + b) st = iterRemove DiskEnv.ok root b st' := by
  intro a
  induction a with
  | zero =>
    intro st st' h b
    simp [iterRemove] at h
    rw [Nat.zero_add, h]
  | succ a ih =>
    intro st st' h b
    rcases hR : RemoveSector DiskEnv.ok root st with ⟨e, st1, evs⟩
    cases e with
    | some err =>
      rw [iterRemove, hR] at h
      simp at h
    | none =>
      rw [iterRemove, hR] at h
      have hab : a + 1 + b = (a + b) + 1 := by omega
      rw [hab, iterRemove, hR]
      exact ih st1 st' h b

/-- Claim C1: for every sector root and valid `SECTOR_SIZE` payload, starting
from a state where the sector is absent and some healthy folder has a vacant
slot, `k` successful `AddSector(root, data)` calls followed by `k` successful
`RemoveSector(root)` calls leave the slot free - the sector absent from
`sectorLocations`, its `availableSectors` entry removed, and its usage bit
cleared - while `k` adds followed by `k - 1` removes leave the sector present
with count exactly 1. -/
theorem C1_refcount_invariant (root : Nat) (data : List Nat) (k : Nat) (st : CMState)
    (hk1 : 1 ≤ k) (hk2 : k ≤ 65535)
    (habs : alookup (managedSectorID root) st.sectorLocations = none)
    (hlen : data.length = SectorSize)
    (hvac : ∃ p ∈ st.storageFolders, p.2.atomicUnavailable = false ∧ hasVacancy p.2 = true) :
    ∃ f slot stk stp stf,
      iterAdd DiskEnv.ok root data k st = (none, stk) ∧
      iterRemove DiskEnv.ok root (k - 1) stk = (none, stp) ∧
      alookup (managedSectorID root) stp.sectorLocations = some ⟨slot, f, 1⟩ ∧
      iterRemove DiskEnv.ok root k stk = (none, stf) ∧
      slotFree stf (managedSectorID root) f slot := by
  obtain ⟨f, slot, st1, hadd1, hpin1⟩ := addSector_physical_ok root data st habs hlen hvac
  obtain ⟨stk, hiterk, hpink⟩ := iterAdd_pinned root data f slot (k - 1) 1 st1 hpin1 (by omega)
  have hiterAdd : iterAdd DiskEnv.ok root data k st = (none, stk) := by
    have hkeq : k = (k - 1) + 1 := by omega
    rw [hkeq, iterAdd, hadd1]
    exact hiterk
  have hpinkk : sectorPinned stk (managedSectorID root) f slot k := by
    have hEq : 1 + (k - 1) = k := by omega
    rwa [hEq] at hpink
  obtain ⟨stp, hiterp, hpinp⟩ := iterRemove_pinned root f slot (k - 1) k stk hpinkk (by omega)
  have hEq1 : k - (k - 1) = 1 := by omega
  rw [hEq1] at hpinp
  obtain ⟨stf, hremf, hfree⟩ := removeSector_final root stp f slot hpinp
  have hrem1 : iterRemove DiskEnv.ok root 1 stp = (none, stf) := by
    show iterRemove DiskEnv.ok root (0 + 1) stp = (none, stf)
    rw [iterRemove, hremf]
    simp [iterRemove]
  have hiterf : iterRemove DiskEnv.ok root k stk = (none, stf) := by
    have hkeq : k = (k - 1) + 1 := by omega
    rw [hkeq, iterRemove_split root (k - 1) stk stp hiterp 1]
    exact hrem1
  exact ⟨f, slot, stk, stp, stf, hiterAdd, hiterp, hpinp.1, hiterf, hfree⟩

/-- A one-folder two-slot state used to instantiate the theorems on
concrete inputs. -/
def wFolder : StorageFolder :=
  { path := "f1", usage := [false, false], availableSectors := []
    atomicUnavailable := false, metadataFile := [], sectorFile := [] }

/-- An empty contract-manager state holding only `wFolder`. -/
def wState : CMState :=
  { storageFolders := [(0, wFolder)], sectorLocations := [] }

/-- A well-formed sector payload of exactly `SECTOR_SIZE` bytes. -/
def wData : List Nat := List.replicate SectorSize 0

/-- Witness for C1 at root 5, payload `wData`, `k = 3` on `wState`. -/
theorem C1_refcount_invariant_witness :
    ((1 : Nat) ≤ 3 ∧ (3 : Nat) ≤ 65535 ∧
     alookup (managedSectorID 5) wState.sectorLocations = none ∧
     wData.length = SectorSize ∧
     (∃ p ∈ wState.storageFolders, p.2.atomicUnavailable = false ∧ hasVacancy p.2 = true)) ∧
    (∃ f slot stk stp stf,
      iterAdd DiskEnv.ok 5 wData 3 wState = (none, stk) ∧
      iterRemove DiskEnv.ok 5 2 stk = (none, stp) ∧
      alookup (managedSectorID 5) stp.sectorLocations = some ⟨slot, f, 1⟩ ∧
      iterRemove DiskEnv.ok 5 3 stk = (none, stf) ∧
      slotFree stf (managedSectorID 5) f slot) := by
  have h1 : (1 : Nat) ≤ 3 := by decide
  have h2 : (3 : Nat) ≤ 65535 := by decide
  have habs : alookup (managedSectorID 5) wState.sectorLocations = none := by
    simp [wState, alookup]
  have hlen : wData.length = SectorSize := by simp [wData]
  have hvac : ∃ p ∈ wState.storageFolders, p.2.atomicUnavailable = false ∧
      hasVacancy p.2 = true := by
    refine ⟨(0, wFolder), by simp [wState], by simp [wFolder], by decide⟩
  exact ⟨⟨h1, h2, habs, hlen, hvac⟩,
    C1_refcount_invariant 5 wData 3 wState h1 h2 habs hlen hvac⟩

theorem rollback_after_tentative (st : CMState) (f id slot : Nat) (sf sfx : StorageFolder)
    (husage : sfx.usage = sf.usage.set slot true)
    (havx : sfx.availableSectors = aset id slot sf.availableSectors)
    (hslot : sf.usage[slot]? = some false)
    (hav : alookup id sf.availableSectors = none) :
    rollbackTentative { st with storageFolders := aset f sfx st.storageFolders } f id slot =
      { st with storageFolders :=
          (aset f ({ sfx with usage := sf.usage, availableSectors := sf.availableSectors })
            st.storageFolders) } := by
  simp [rollbackTentative, alookup_aset_same, updFolder, aset_aset_same, husage, havx,
    listSet_listSet, listSet_same_of_get _ _ _ hslot, aerase_aset_of_absent _ _ _ hav]

/-- Claim C4: in a physical add, once the tentative slot's usage bit is set and
its `availableSectors` entry recorded, exactly one of two outcomes happens:
if the sector data write, the metadata write and both file syncs succeed, the
sector is promoted from `availableSectors` into `sectorLocations` at that
folder and slot; otherwise the attempt fails with an error, the usage bit is
cleared and the `availableSectors` entry is removed, restoring the folder's
usage bitmap and `availableSectors` (and the sector index) to their values
before the attempt. -/
theorem C4_physical_attempt_outcomes (env : DiskEnv) (id : Nat) (data : List Nat)
    (count f : Nat) (sf : StorageFolder) (slot : Nat) (st : CMState)
    (hslot : sf.usage[slot]? = some false)
    (hav : alookup id sf.availableSectors = none) :
    ((env.writeSectorOk = true ∧ env.writeMetaOk = true ∧ env.sectorSyncOk = true ∧
        env.metaSyncOk = true) →
      ∃ st', addPhysicalAttempt env id data count f sf slot st = (none, st') ∧
        alookup id st'.sectorLocations = some ⟨slot, f, count⟩ ∧
        ∃ sf', alookup f st'.storageFolders = some sf' ∧
          alookup id sf'.availableSectors = none ∧ sf'.usage[slot]? = some true) ∧
    (¬(env.writeSectorOk = true ∧ env.writeMetaOk = true ∧ env.sectorSyncOk = true ∧
        env.metaSyncOk = true) →
      ∃ e st', addPhysicalAttempt env id data count f sf slot st = (some e, st') ∧
        st'.sectorLocations = st.sectorLocations ∧
        ∃ sf', alookup f st'.storageFolders = some sf' ∧
          sf'.usage = sf.usage ∧ sf'.availableSectors = sf.availableSectors) := by
  have hlt : slot < sf.usage.length := by
    by_contra hge
    rw [List.getElem?_eq_none (Nat.le_of_not_lt hge)] at hslot
    exact Option.noConfusion hslot
  constructor
  · rintro ⟨h1, h2, h3, h4⟩
    refine ⟨_, addPhysicalAttempt_ok env id data count f sf slot st h1 h2 h3 h4,
      by simp [alookup_aset_same], promotedFolder sf id data count slot,
      by simp [alookup_aset_same], by simp [promotedFolder, alookup_aerase_same],
      by simp [promotedFolder, get_listSet_same _ _ _ hlt]⟩
  · intro hfail
    by_cases h1 : env.writeSectorOk = true
    · by_cases h2 : env.writeMetaOk = true
      · have h34 : ¬(env.sectorSyncOk = true ∧ env.metaSyncOk = true) := by
          intro hx
          exact hfail ⟨h1, h2, hx.1, hx.2⟩
        refine ⟨CMErr.syncFailed,
          { st with storageFolders :=
              (aset f ({ sf with sectorFile := aset slot data sf.sectorFile
                                 metadataFile := aset slot (id, count) sf.metadataFile })
                st.storageFolders) }, ?_, rfl, ?_⟩
        · simp only [addPhysicalAttempt, cmWriteSector, cmWriteSectorMetadata, h1, h2,
            if_true, updFolder, aset_aset_same]
          rw [if_neg (by simpa [Bool.and_eq_true] using h34)]
          rw [rollback_after_tentative st f id slot sf _ rfl rfl hslot hav]
        · exact ⟨{ sf with sectorFile := aset slot data sf.sectorFile
                           metadataFile := aset slot (id, count) sf.metadataFile },
            by simp [alookup_aset_same], rfl, rfl⟩
      · have h2f : env.writeMetaOk = false := by simpa using h2
        refine ⟨CMErr.diskTrouble,
          { st with storageFolders :=
              (aset f ({ sf with sectorFile := aset slot data sf.sectorFile })
                st.storageFolders) }, ?_, rfl, ?_⟩
        · simp only [addPhysicalAttempt, cmWriteSector, cmWriteSectorMetadata, h1, h2f,
            if_true, Bool.false_eq_true, if_false, updFolder, aset_aset_same]
          rw [rollback_after_tentative st f id slot sf _ rfl rfl hslot hav]
        · exact ⟨{ sf with sectorFile := aset slot data sf.sectorFile },
            by simp [alookup_aset_same], rfl, rfl⟩
    · have h1f : env.writeSectorOk = false := by simpa using h1
      refine ⟨CMErr.diskTrouble,
        { st with storageFolders := (aset f sf st.storageFolders) }, ?_, rfl, ?_⟩
      · simp only [addPhysicalAttempt, cmWriteSector, h1f, Bool.false_eq_true, if_false,
          updFolder, aset_aset_same]
        rw [rollback_after_tentative st f id slot sf _ rfl rfl hslot hav]
      · exact ⟨sf, by simp [alookup_aset_same], rfl, rfl⟩

/-- Witness for C4 on `wFolder`, slot 0, in both regimes: the healthy
environment and an environment whose metadata write fails. -/
theorem C4_physical_attempt_outcomes_witness :
    (wFolder.usage[0]? = some false ∧ alookup 5 wFolder.availableSectors = none) ∧
    (∃ st', addPhysicalAttempt DiskEnv.ok 5 [7] 1 0 wFolder 0 wState = (none, st') ∧
      alookup 5 st'.sectorLocations = some ⟨0, 0, 1⟩ ∧
      ∃ sf', alookup 0 st'.storageFolders = some sf' ∧
        alookup 5 sf'.availableSectors = none ∧ sf'.usage[0]? = some true) ∧
    (∃ e st',
      addPhysicalAttempt { DiskEnv.ok with writeMetaOk := false } 5 [7] 1 0 wFolder 0 wState =
        (some e, st') ∧
      st'.sectorLocations = wState.sectorLocations ∧
      ∃ sf', alookup 0 st'.storageFolders = some sf' ∧
        sf'.usage = wFolder.usage ∧ sf'.availableSectors = wFolder.availableSectors) := by
  have hslot : wFolder.usage[0]? = some false := by decide
  have hav : alookup 5 wFolder.availableSectors = none := by decide
  refine ⟨⟨hslot, hav⟩, ?_, ?_⟩
  · exact (C4_physical_attempt_outcomes DiskEnv.ok 5 [7] 1 0 wFolder 0 wState hslot hav).1
      ⟨rfl, rfl, rfl, rfl⟩
  · exact (C4_physical_attempt_outcomes { DiskEnv.ok with writeMetaOk := false }
      5 [7] 1 0 wFolder 0 wState hslot hav).2 (by simp)

/-- A healthy one-folder state that already holds sector 7 at slot 0 with
count 1. -/
def stOcc : CMState :=
  { storageFolders :=
      [(0, { path := "f1", usage := [true], availableSectors := []
             atomicUnavailable := false, metadataFile := [(0, (7, 1))]
             sectorFile := [(0, [1, 2, 3])] })]
    sectorLocations := [(7, ⟨0, 0, 1⟩)] }

/-- Like `stOcc` but with the folder quarantined
(`atomicUnavailable = 1`) and the stored count at 3. -/
def stQuar : CMState :=
  { storageFolders :=
      [(0, { path := "f1", usage := [true], availableSectors := []
             atomicUnavailable := true, metadataFile := [(0, (7, 3))]
             sectorFile := [(0, [1, 2, 3])] })]
    sectorLocations := [(7, ⟨0, 0, 3⟩)] }

/-- Counterexample to C5 as stated: on a root that is already present,
`AddSector` with a payload of the wrong size (here `[]`, length 0 ≠
`SECTOR_SIZE`) does not return `MalformedSector` - it succeeds as a virtual
add and increments the count to 2, because the size check sits only on the
physical path and the virtual path never sees the payload. -/
theorem C5_counterexample :
    ([] : List Nat).length ≠ SectorSize ∧
    (AddSector DiskEnv.ok 7 [] stOcc).1 = none ∧
    alookup 7 (AddSector DiskEnv.ok 7 [] stOcc).2.sectorLocations = some ⟨0, 0, 2⟩ := by
  refine ⟨by decide, ?_, ?_⟩ <;> rfl

/-- Claim C5 as amended: when the root is not yet present, `AddSector` with
`len(data) ≠ SECTOR_SIZE` returns the malformed-sector error and leaves the
state untouched; when the root is present, the payload length is not
validated at all - the call behaves exactly as the virtual add of that
root, whatever the payload. -/
theorem C5_malformed_sector (env : DiskEnv) (root : Nat) (data : List Nat) (st : CMState)
    (hsd : env.shuttingDown = false) (hdt : env.disruptDiskTrouble = false) :
    (alookup (managedSectorID root) st.sectorLocations = none →
      data.length ≠ SectorSize →
      AddSector env root data st = (some .malformedSector, st)) ∧
    (∀ loc, alookup (managedSectorID root) st.sectorLocations = some loc →
      AddSector env root data st = managedAddVirtualSector env (managedSectorID root) loc st) := by
  constructor
  · intro habs hlen
    simp [AddSector, hsd, hdt, habs, managedAddPhysicalSector, hlen]
  · intro loc hloc
    simp [AddSector, hsd, hdt, hloc]

/-- Witness for C5 (amended): a missing root with an undersized payload is
rejected with `MalformedSector` and no state change; a present root with the
same undersized payload is processed as a virtual add. -/
theorem C5_malformed_sector_witness :
    AddSector DiskEnv.ok 9 [] wState = (some .malformedSector, wState) ∧
    AddSector DiskEnv.ok 7 [] stOcc =
      managedAddVirtualSector DiskEnv.ok (managedSectorID 7) ⟨0, 0, 1⟩ stOcc := by
  constructor
  · exact (C5_malformed_sector DiskEnv.ok 9 [] wState rfl rfl).1 (by rfl) (by decide)
  · exact (C5_malformed_sector DiskEnv.ok 7 [] stOcc rfl rfl).2 ⟨0, 0, 1⟩ (by rfl)

/-- Counterexample to C6 as stated: on a root whose sector sits in a
quarantined folder, the existing count is 3 (≠ 65535), yet the virtual add
does not increment anything - it fails with the storage-folder-not-found
error and the stored count stays 3, because `managedAddVirtualSector`
requires the folder to be present and available before committing. -/
theorem C6_counterexample :
    (3 : Nat) ≠ 65535 ∧
    AddSector DiskEnv.ok 7 [] stQuar = (some .storageFolderNotFound, stQuar) ∧
    alookup 7 (AddSector DiskEnv.ok 7 [] stQuar).2.sectorLocations = some ⟨0, 0, 3⟩ := by
  refine ⟨by decide, ?_, ?_⟩ <;> rfl

/-- Claim C6 as amended: on a root already present in `sectorLocations`, the
operation is a virtual add: at count 65535 it returns `MaxVirtualSectors`
and changes nothing; otherwise, provided the sector's folder is registered
and not marked unavailable and the metadata write and sync succeed, it
writes a metadata record carrying `count + 1` and the stored count becomes
exactly one greater, with no new slot allocated (every folder's usage
bitmap and `availableSectors` are unchanged). -/
theorem C6_virtual_add (env : DiskEnv) (root : Nat) (data : List Nat) (st : CMState)
    (loc : SectorLocation)
    (hsd : env.shuttingDown = false) (hdt : env.disruptDiskTrouble = false)
    (hloc : alookup (managedSectorID root) st.sectorLocations = some loc) :
    (loc.count = 65535 → AddSector env root data st = (some .maxVirtualSectors, st)) ∧
    (loc.count ≠ 65535 →
     ∀ sf, alookup loc.storageFolder st.storageFolders = some sf →
      sf.atomicUnavailable = false → env.writeMetaOk = true → env.metaSyncOk = true →
      ∃ st', AddSector env root data st = (none, st') ∧
        alookup (managedSectorID root) st'.sectorLocations =
          some { loc with count := loc.count + 1 } ∧
        (∃ sf', alookup loc.storageFolder st'.storageFolders = some sf' ∧
          alookup loc.index sf'.metadataFile = some (managedSectorID root, loc.count + 1) ∧
          sf'.usage = sf.usage ∧ sf'.availableSectors = sf.availableSectors) ∧
        (∀ g, g ≠ loc.storageFolder →
          alookup g st'.storageFolders = alookup g st.storageFolders)) := by
  constructor
  · intro hmax
    simp [AddSector, hsd, hdt, hloc, managedAddVirtualSector, hmax]
  · intro hmax sf hsf hunav hw hs
    refine ⟨{ storageFolders :=
                (aset loc.storageFolder
                  ({ sf with
                      metadataFile :=
                        aset loc.index (managedSectorID root, loc.count + 1) sf.metadataFile })
                  st.storageFolders)
              sectorLocations :=
                aset (managedSectorID root) { loc with count := loc.count + 1 }
                  st.sectorLocations }, ?_, ?_, ?_, ?_⟩
    · have h1 : AddSector env root data st =
          managedAddVirtualSector env (managedSectorID root) loc st := by
        simp [AddSector, hsd, hdt, hloc]
      rw [h1]
      simp only [managedAddVirtualSector]
      rw [if_neg hmax, hsf]
      simp [hunav, cmWriteSectorMetadata, hw, hs, updFolder]
    · simp [alookup_aset_same]
    · exact ⟨{ sf with
          metadataFile :=
            aset loc.index (managedSectorID root, loc.count + 1) sf.metadataFile },
        by simp [alookup_aset_same], by simp [alookup_aset_same], rfl, rfl⟩
    · intro g hg
      simp [alookup_aset_ne _ _ _ _ hg]

/-- Witness for C6 (amended): the cap branch on a state with count 65535,
and the increment branch on `stOcc` (count 1 becomes 2, usage and
`availableSectors` untouched). -/
theorem C6_virtual_add_witness :
    AddSector DiskEnv.ok 7 []
      { storageFolders := stOcc.storageFolders
        sectorLocations := [(7, ⟨0, 0, 65535⟩)] } =
      (some .maxVirtualSectors,
        { storageFolders := stOcc.storageFolders
          sectorLocations := [(7, ⟨0, 0, 65535⟩)] }) ∧
    (∃ st', AddSector DiskEnv.ok 7 [] stOcc = (none, st') ∧
      alookup (managedSectorID 7) st'.sectorLocations = some ⟨0, 0, 2⟩ ∧
      (∃ sf', alookup 0 st'.storageFolders = some sf' ∧
        alookup 0 sf'.metadataFile = some (managedSectorID 7, 2) ∧
        sf'.usage = [true] ∧ sf'.availableSectors = []) ∧
      (∀ g, g ≠ 0 → alookup g st'.storageFolders = alookup g stOcc.storageFolders)) := by
  constructor
  · exact (C6_virtual_add DiskEnv.ok 7 []
      { storageFolders := stOcc.storageFolders
        sectorLocations := [(7, ⟨0, 0, 65535⟩)] } ⟨0, 0, 65535⟩ rfl rfl (by rfl)).1 rfl
  · exact (C6_virtual_add DiskEnv.ok 7 [] stOcc ⟨0, 0, 1⟩ rfl rfl (by rfl)).2
      (by decide)
      { path := "f1", usage := [true], availableSectors := []
        atomicUnavailable := false, metadataFile := [(0, (7, 1))]
        sectorFile := [(0, [1, 2, 3])] }
      (by rfl) rfl rfl rfl

/-- Counterexample to C7 as stated: when the metadata file sync fails after
a successful metadata write, the virtual add returns the error but the
in-memory count in `sectorLocations` is NOT rolled back - it stays at the
incremented value 2 (the rollback at sectorupdate.go:189-195 runs only for
a failed write; the final `return sf.metadataFile.Sync()` at line 198 has no
rollback). -/
theorem C7_counterexample :
    (AddSector { DiskEnv.ok with metaSyncOk := false } 7 [] stOcc).1 =
      some CMErr.syncFailed ∧
    alookup 7
      (AddSector { DiskEnv.ok with metaSyncOk := false } 7 [] stOcc).2.sectorLocations =
      some ⟨0, 0, 2⟩ := by
  exact ⟨rfl, rfl⟩

/-- Claim C7 as amended: for a virtual add on a present root (below the count
cap, with its folder registered and available): if the metadata write
fails, the in-memory count is rolled back to its prior value and the error
is returned; if the write succeeds but the metadata file sync fails, the
error is returned but the in-memory count remains incremented. -/
theorem C7_virtual_add_rollback (env : DiskEnv) (root : Nat) (data : List Nat)
    (st : CMState) (loc : SectorLocation) (sf : StorageFolder)
    (hsd : env.shuttingDown = false) (hdt : env.disruptDiskTrouble = false)
    (hloc : alookup (managedSectorID root) st.sectorLocations = some loc)
    (hmax : loc.count ≠ 65535)
    (hsf : alookup loc.storageFolder st.storageFolders = some sf)
    (hunav : sf.atomicUnavailable = false) :
    (env.writeMetaOk = false →
      ∃ st', AddSector env root data st = (some .diskTrouble, st') ∧
        alookup (managedSectorID root) st'.sectorLocations = some loc) ∧
    (env.writeMetaOk = true → env.metaSyncOk = false →
      ∃ st', AddSector env root data st = (some .syncFailed, st') ∧
        alookup (managedSectorID root) st'.sectorLocations =
          some { loc with count := loc.count + 1 }) := by
  have h1 : AddSector env root data st =
      managedAddVirtualSector env (managedSectorID root) loc st := by
    simp [AddSector, hsd, hdt, hloc]
  constructor
  · intro hw
    refine ⟨{ st with
                sectorLocations :=
                  aset (managedSectorID root) { loc with count := loc.count + 1 - 1 }
                    (aset (managedSectorID root) { loc with count := loc.count + 1 }
                      st.sectorLocations) }, ?_, ?_⟩
    · rw [h1]
      simp only [managedAddVirtualSector]
      rw [if_neg hmax, hsf]
      simp [hunav, cmWriteSectorMetadata, hw]
    · simp [alookup_aset_same]
  · intro hw hs
    refine ⟨{ storageFolders :=
                (aset loc.storageFolder
                  ({ sf with
                      metadataFile :=
                        aset loc.index (managedSectorID root, loc.count + 1) sf.metadataFile })
                  st.storageFolders)
              sectorLocations :=
                aset (managedSectorID root) { loc with count := loc.count + 1 }
                  st.sectorLocations }, ?_, ?_⟩
    · rw [h1]
      simp only [managedAddVirtualSector]
      rw [if_neg hmax, hsf]
      simp [hunav, cmWriteSectorMetadata, hw, hs, updFolder]
    · simp [alookup_aset_same]

/-- Witness for C7 (amended) on `stOcc`: a failed metadata write leaves the
count at 1 and returns the disk-trouble error; a failed sync leaves the
count at 2 and returns the sync error. -/
theorem C7_virtual_add_rollback_witness :
    (∃ st', AddSector { DiskEnv.ok with writeMetaOk := false } 7 [] stOcc =
        (some .diskTrouble, st') ∧
      alookup (managedSectorID 7) st'.sectorLocations = some ⟨0, 0, 1⟩) ∧
    (∃ st', AddSector { DiskEnv.ok with metaSyncOk := false } 7 [] stOcc =
        (some .syncFailed, st') ∧
      alookup (managedSectorID 7) st'.sectorLocations = some ⟨0, 0, 2⟩) := by
  constructor
  · exact (C7_virtual_add_rollback { DiskEnv.ok with writeMetaOk := false } 7 [] stOcc
      ⟨0, 0, 1⟩
      { path := "f1", usage := [true], availableSectors := []
        atomicUnavailable := false, metadataFile := [(0, (7, 1))]
        sectorFile := [(0, [1, 2, 3])] }
      rfl rfl (by rfl) (by decide) (by rfl) rfl).1 rfl
  · exact (C7_virtual_add_rollback { DiskEnv.ok with metaSyncOk := false } 7 [] stOcc
      ⟨0, 0, 1⟩
      { path := "f1", usage := [true], availableSectors := []
        atomicUnavailable := false, metadataFile := [(0, (7, 1))]
        sectorFile := [(0, [1, 2, 3])] }
      rfl rfl (by rfl) (by decide) (by rfl) rfl).2 rfl rfl

/-- Helper for `clearedOnlyAfterSignalApplied`: the flag records whether a
`signalUpdatesApplied` event has already occurred. -/
def clearsAfterFlag : Bool → List Ev → Bool
  | _, [] => true
  | _, Ev.signalUpdatesApplied :: t => clearsAfterFlag true t
  | seen, Ev.clearUsage _ _ :: t => seen && clearsAfterFlag seen t
  | seen, _ :: t => clearsAfterFlag seen t

/-- Every `clearUsage` event in the trace occurs only after a
`signalUpdatesApplied` event has returned. -/
def clearedOnlyAfterSignalApplied (evs : List Ev) : Bool :=
  clearsAfterFlag false evs

/-- Helper for `clearedOnlyAfterSync`: the flag records whether a
`metadataSync` event has already occurred. -/
def clearsAfterSyncFlag : Bool → List Ev → Bool
  | _, [] => true
  | _, Ev.metadataSync _ :: t => clearsAfterSyncFlag true t
  | seen, Ev.clearUsage _ _ :: t => seen && clearsAfterSyncFlag seen t
  | seen, _ :: t => clearsAfterSyncFlag seen t

/-- Every `clearUsage` event in the trace occurs only after a
`metadataSync` event has returned. -/
def clearedOnlyAfterSync (evs : List Ev) : Bool :=
  clearsAfterSyncFlag false evs

/-- Counterexample to C3 as stated: a successful `RemoveSector` taking the
count from 1 to 0 on `stOcc` clears the usage bit BEFORE the transaction's
`SignalUpdatesApplied` returns, not after - `createAndApplyTransaction`
calls `SignalUpdatesApplied` only after `applyUpdates` (which performs the
clear) has returned. -/
theorem C3_counterexample :
    (RemoveSector DiskEnv.ok 7 stOcc).1 = none ∧
    clearedOnlyAfterSignalApplied (RemoveSector DiskEnv.ok 7 stOcc).2.2 = false := by
  exact ⟨rfl, rfl⟩

/-- Claim C3 as amended: for every `RemoveSector` call that takes a sector's
count from 1 to 0, the removal deletes the sector's index entry and moves
the slot to `availableSectors`, and the folder's usage bit for that slot is
cleared only after the metadata write and the metadata file sync have
returned - and before the WAL transaction's `signal_updates_applied` runs,
as the explicit event trace shows. -/
theorem C3_remove_ordering (root : Nat) (st : CMState) (loc : SectorLocation)
    (sf : StorageFolder)
    (hloc : alookup (managedSectorID root) st.sectorLocations = some loc)
    (hcount : loc.count = 1)
    (hsf : alookup loc.storageFolder st.storageFolders = some sf)
    (hunav : sf.atomicUnavailable = false)
    (hav : alookup (managedSectorID root) sf.availableSectors = none)
    (husage : sf.usage[loc.index]? = some true) :
    ∃ st', RemoveSector DiskEnv.ok root st =
      (none, st',
        [Ev.signalSetupComplete,
         Ev.metadataWrite loc.storageFolder loc.index (managedSectorID root) 0,
         Ev.metadataSync loc.storageFolder,
         Ev.deleteLocation (managedSectorID root),
         Ev.addAvailable loc.storageFolder (managedSectorID root) loc.index,
         Ev.clearUsage loc.storageFolder loc.index,
         Ev.removeAvailable loc.storageFolder (managedSectorID root),
         Ev.signalUpdatesApplied]) ∧
      clearedOnlyAfterSync (RemoveSector DiskEnv.ok root st).2.2 = true ∧
      alookup (managedSectorID root) st'.sectorLocations = none ∧
      (∃ sf', alookup loc.storageFolder st'.storageFolders = some sf' ∧
        alookup (managedSectorID root) sf'.availableSectors = none ∧
        sf'.usage[loc.index]? = some false) := by
  have hloc1 : loc = ⟨loc.index, loc.storageFolder, 1⟩ := by
    cases loc with
    | mk i g c =>
      simp only at hcount
      simp [hcount]
  have hpin : sectorPinned st (managedSectorID root) loc.storageFolder loc.index 1 :=
    ⟨by rw [hloc, hloc1], sf, hsf, hunav, hav, husage⟩
  obtain ⟨st', hrem, hfree⟩ :=
    removeSector_final root st loc.storageFolder loc.index hpin
  obtain ⟨hnone, sf', hsf', hav', husage'⟩ := hfree
  exact ⟨st', hrem, by rw [hrem]; rfl, hnone, sf', hsf', hav', husage'⟩

/-- Witness for C3 (amended) on `stOcc`: the full trace of the final
removal of sector 7, with the usage-bit clear sitting between the metadata
sync and `signalUpdatesApplied`. -/
theorem C3_remove_ordering_witness :
    ∃ st', RemoveSector DiskEnv.ok 7 stOcc =
      (none, st',
        [Ev.signalSetupComplete, Ev.metadataWrite 0 0 7 0, Ev.metadataSync 0,
         Ev.deleteLocation 7, Ev.addAvailable 0 7 0, Ev.clearUsage 0 0,
         Ev.removeAvailable 0 7, Ev.signalUpdatesApplied]) ∧
      clearedOnlyAfterSync (RemoveSector DiskEnv.ok 7 stOcc).2.2 = true ∧
      alookup 7 st'.sectorLocations = none ∧
      (∃ sf', alookup 0 st'.storageFolders = some sf' ∧
        alookup 7 sf'.availableSectors = none ∧ sf'.usage[0]? = some false) := by
  exact C3_remove_ordering 7 stOcc ⟨0, 0, 1⟩
    { path := "f1", usage := [true], availableSectors := []
      atomicUnavailable := false, metadataFile := [(0, (7, 1))]
      sectorFile := [(0, [1, 2, 3])] }
    rfl rfl rfl rfl rfl rfl

/-- Counterexample to C2 as stated: applying a WAL update whose name is not
one of the six catalogued names is NOT treated as a fatal error - the
`switch` in `applyUpdates` has no default case, so the update is silently
skipped, the error stays nil and the call reports success with the state
untouched. -/
theorem C2_counterexample :
    "NotARealUpdateName" ∉ cataloguedUpdateNames ∧
    applyUpdates DiskEnv.ok [{ name := "NotARealUpdateName", instr := .empty }] stOcc =
      (none, stOcc) := by
  exact ⟨by decide, rfl⟩

/-- Claim C2 as amended: applying a WAL update whose name is not one of the
catalogued update names is a silent no-op: the update matches no case of
the `switch`, the error remains nil, the state is untouched, and
processing continues with the remaining updates reporting success. -/
theorem C2_unknown_update_skipped (env : DiskEnv) (u : WalUpdate) (st : CMState)
    (rest : List WalUpdate) (h : u.name ∉ cataloguedUpdateNames) :
    applyUpdate env u st = (none, st) ∧
    applyUpdates env (u :: rest) st = applyUpdates env rest st := by
  simp only [cataloguedUpdateNames, List.mem_cons, List.not_mem_nil, or_false,
    not_or] at h
  obtain ⟨n1, n2, n3, n4, n5, n6⟩ := h
  have h1 : applyUpdate env u st = (none, st) := by
    simp [applyUpdate, n1, n2, n3, n4, n5, n6]
  exact ⟨h1, by simp [applyUpdates, h1]⟩

/-- Witness for C2 (amended) with the name `"ZZZUpdate"` on `stOcc`. -/
theorem C2_unknown_update_skipped_witness :
    "ZZZUpdate" ∉ cataloguedUpdateNames ∧
    applyUpdate DiskEnv.ok { name := "ZZZUpdate", instr := .empty } stOcc = (none, stOcc) ∧
    applyUpdates DiskEnv.ok [{ name := "ZZZUpdate", instr := .empty }] stOcc =
      applyUpdates DiskEnv.ok [] stOcc := by
  have h : "ZZZUpdate" ∉ cataloguedUpdateNames := by decide
  exact ⟨h,
    (C2_unknown_update_skipped DiskEnv.ok { name := "ZZZUpdate", instr := .empty }
      stOcc [] h).1,
    (C2_unknown_update_skipped DiskEnv.ok { name := "ZZZUpdate", instr := .empty }
      stOcc [] h).2⟩

/-- Claim C8: `AddSectorBatch` and `RemoveSectorBatch` return success at the
interface whenever the host is not shutting down, for every list of roots
and every state - each per-sector error inside the batch is discarded and
never reaches the caller's return value (the environment is arbitrary, so
this covers batches whose individual operations fail). -/
theorem C8_batch_interface_success (env : DiskEnv) (roots : List Nat) (st : CMState)
    (h : env.shuttingDown = false) :
    (AddSectorBatch env roots st).1 = none ∧
    (RemoveSectorBatch env roots st).1 = none := by
  simp [AddSectorBatch, RemoveSectorBatch, h]

/-- Witness for C8 with an environment whose metadata writes all fail, so
every per-sector operation inside the batch errors, yet both batch calls
return success. -/
theorem C8_batch_interface_success_witness :
    ({ DiskEnv.ok with writeMetaOk := false } : DiskEnv).shuttingDown = false ∧
    (AddSectorBatch { DiskEnv.ok with writeMetaOk := false } [7, 9] stOcc).1 = none ∧
    (RemoveSectorBatch { DiskEnv.ok with writeMetaOk := false } [7, 9] stOcc).1 = none := by
  exact ⟨rfl,
    (C8_batch_interface_success { DiskEnv.ok with writeMetaOk := false } [7, 9] stOcc rfl).1,
    (C8_batch_interface_success { DiskEnv.ok with writeMetaOk := false } [7, 9] stOcc rfl).2⟩

theorem perRootAdd_absent (env : DiskEnv) (st : CMState) (root : Nat)
    (h : alookup (managedSectorID root) st.sectorLocations = none) :
    perRootAdd env st root = st := by
  simp only [perRootAdd, h]
  rfl

theorem foldl_perRootAdd_absent (env : DiskEnv) :
    ∀ (roots : List Nat) (st : CMState),
      (∀ r ∈ roots, alookup (managedSectorID r) st.sectorLocations = none) →
      roots.foldl (perRootAdd env) st = st := by
  intro roots
  induction roots with
  | nil => intro st _; rfl
  | cons r t ih =>
    intro st hall
    have h1 : perRootAdd env st r = st := perRootAdd_absent env st r (hall r (by simp))
    simp only [List.foldl_cons, h1]
    exact ih st (fun r' hr' => hall r' (by simp [hr']))

/-- Claim C9: in `AddSectorBatch`, every root whose id has no entry in
`sectorLocations` is a silent no-op: the zero-valued WAL update built for
it has the empty name, which is not catalogued and matches no case of
`applyUpdates`, so the state is untouched (in particular a batch of only
unknown roots returns success and leaves the state exactly as it was);
and only roots already present have their count incremented, by one. -/
theorem C9_batch_unknown_root_noop :
    (zeroWalUpdate.name ∉ cataloguedUpdateNames ∧
     ∀ (env : DiskEnv) (st : CMState), applyUpdates env [zeroWalUpdate] st = (none, st)) ∧
    (∀ (env : DiskEnv) (st : CMState) (root : Nat),
      alookup (managedSectorID root) st.sectorLocations = none →
      perRootAdd env st root = st) ∧
    (∀ (env : DiskEnv) (roots : List Nat) (st : CMState),
      env.shuttingDown = false →
      (∀ r ∈ roots, alookup (managedSectorID r) st.sectorLocations = none) →
      AddSectorBatch env roots st = (none, st)) ∧
    (∀ (env : DiskEnv) (st : CMState) (root : Nat) (loc : SectorLocation)
       (sf : StorageFolder),
      env.writeMetaOk = true →
      alookup (managedSectorID root) st.sectorLocations = some loc →
      loc.count ≠ 65535 →
      alookup loc.storageFolder st.storageFolders = some sf →
      sf.atomicUnavailable = false →
      alookup (managedSectorID root) (perRootAdd env st root).sectorLocations =
        some { loc with count := loc.count + 1 }) := by
  refine ⟨⟨by decide, fun env st => rfl⟩, perRootAdd_absent, ?_, ?_⟩
  · intro env roots st hsd hall
    simp [AddSectorBatch, hsd, foldl_perRootAdd_absent env roots st hall]
  · intro env st root loc sf hw hloc hmax hsf hunav
    simp only [perRootAdd, hloc, managedAddVirtualSector]
    rw [if_neg hmax, hsf]
    simp only [hunav, Bool.false_eq_true, if_false, cmWriteSectorMetadata, hw, if_true]
    by_cases hs : env.metaSyncOk = true
    · simp [hs, updFolder, alookup_aset_same]
    · simp only [Bool.not_eq_true] at hs
      simp [hs, updFolder, alookup_aset_same]

/-- Witness for C9: on `stOcc`, the unknown root 9 is a silent no-op and a
batch of unknown roots leaves the state unchanged, while the present root
7 has its count incremented from 1 to 2. -/
theorem C9_batch_unknown_root_noop_witness :
    applyUpdates DiskEnv.ok [zeroWalUpdate] stOcc = (none, stOcc) ∧
    perRootAdd DiskEnv.ok stOcc 9 = stOcc ∧
    AddSectorBatch DiskEnv.ok [9, 11] stOcc = (none, stOcc) ∧
    alookup (managedSectorID 7) (perRootAdd DiskEnv.ok stOcc 7).sectorLocations =
      some ⟨0, 0, 2⟩ := by
  refine ⟨C9_batch_unknown_root_noop.1.2 DiskEnv.ok stOcc,
    C9_batch_unknown_root_noop.2.1 DiskEnv.ok stOcc 9 rfl,
    C9_batch_unknown_root_noop.2.2.1 DiskEnv.ok [9, 11] stOcc rfl ?_,
    C9_batch_unknown_root_noop.2.2.2 DiskEnv.ok stOcc 7 ⟨0, 0, 1⟩
      { path := "f1", usage := [true], availableSectors := []
        atomicUnavailable := false, metadataFile := [(0, (7, 1))]
        sectorFile := [(0, [1, 2, 3])] }
      rfl rfl (by decide) rfl rfl⟩
  intro r hr
  simp only [List.mem_cons, List.not_mem_nil, or_false] at hr
  rcases hr with rfl | rfl <;> rfl

theorem loadWalAux_shift (env : DiskEnv) :
    ∀ (txns : List (List WalUpdate)) (i : Nat) (st : CMState),
      loadWalAux env (i + 1) txns st =
        ((loadWalAux env i txns st).1, (loadWalAux env i txns st).2.1,
         (loadWalAux env i txns st).2.2.map (· + 1)) := by
  intro txns
  induction txns with
  | nil => intro i st; simp [loadWalAux]
  | cons txn rest ih =>
    intro i st
    rcases h : applyUpdates env txn st with ⟨e, st1⟩
    cases e with
    | none =>
      simp [loadWalAux, h, ih (i + 1) st1]
    | some err =>
      by_cases hbad : err = CMErr.badStorageFolderIndex
      · subst hbad
        simp [loadWalAux, h, ih (i + 1) st1]
      · simp [loadWalAux, h, hbad]

/-- Claim C10: during startup replay `loadWal` applies each pending WAL
transaction's updates in order; when applying a transaction fails with the
`errBadStorageFolderIndex` error, that transaction is nevertheless
signalled as applied (its index joins the signalled list) and replay
continues with the remaining transactions, while any other apply error
aborts `loadWal` immediately - the error is returned, nothing further is
applied, and no transaction of the remainder is signalled. -/
theorem C10_loadWal_replay (env : DiskEnv) (txn : List WalUpdate)
    (rest : List (List WalUpdate)) (st st' : CMState) :
    (∀ e, applyUpdates env txn st = (some e, st') →
      e ≠ CMErr.badStorageFolderIndex →
      loadWal env (txn :: rest) st = (some e, st', [])) ∧
    (applyUpdates env txn st = (some CMErr.badStorageFolderIndex, st') →
      loadWal env (txn :: rest) st =
        ((loadWal env rest st').1, (loadWal env rest st').2.1,
         0 :: (loadWal env rest st').2.2.map (· + 1))) ∧
    (applyUpdates env txn st = (none, st') →
      loadWal env (txn :: rest) st =
        ((loadWal env rest st').1, (loadWal env rest st').2.1,
         0 :: (loadWal env rest st').2.2.map (· + 1))) := by
  refine ⟨?_, ?_, ?_⟩
  · intro e h hne
    simp [loadWal, loadWalAux, h, hne]
  · intro h
    have hshift := loadWalAux_shift env rest 0 st'
    simp [loadWal, loadWalAux, h, hshift]
  · intro h
    have hshift := loadWalAux_shift env rest 0 st'
    simp [loadWal, loadWalAux, h, hshift]

/-- A transaction whose application fails with the bad-storage-folder-index
error on `wState` (folder 5 is not registered). -/
def txnBadIndex : List WalUpdate :=
  [{ name := removeStorageFolderUpdateName, instr := .removeFolder 5 "p" }]

/-- A transaction whose application fails with an unrelated error on
`wState` (no folder has the path `"nosuch"`). -/
def txnOpenFail : List WalUpdate :=
  [{ name := sectorDataUpdateName, instr := .sectorData "nosuch" 0 [1] }]

/-- Witness for C10: the bad-index transaction is signalled (index 0) and
replay continues to success; the open-failure transaction aborts the load
with its error and nothing is signalled. -/
theorem C10_loadWal_replay_witness :
    applyUpdates DiskEnv.ok txnBadIndex wState =
      (some CMErr.badStorageFolderIndex, wState) ∧
    loadWal DiskEnv.ok [txnBadIndex] wState =
      (none, wState, [0]) ∧
    applyUpdates DiskEnv.ok txnOpenFail wState = (some CMErr.openFailed, wState) ∧
    loadWal DiskEnv.ok [txnOpenFail] wState = (some CMErr.openFailed, wState, []) := by
  have h1 : applyUpdates DiskEnv.ok txnBadIndex wState =
      (some CMErr.badStorageFolderIndex, wState) := rfl
  have h2 : applyUpdates DiskEnv.ok txnOpenFail wState =
      (some CMErr.openFailed, wState) := rfl
  refine ⟨h1, ?_, h2, ?_⟩
  · have := (C10_loadWal_replay DiskEnv.ok txnBadIndex [] wState wState).2.1 h1
    simpa [loadWal, loadWalAux] using this
  · exact (C10_loadWal_replay DiskEnv.ok txnOpenFail [] wState wState).1
      CMErr.openFailed h2 (by decide)

end Skynet
